import Mathlib

/-!
Shallow embedding of the KalloView SDK (src/src/instructions.ts and the
client file concatenated to it) in Lean 4. Bytes are modelled as `Nat`
values in `[0, 256)`, byte buffers as `List Nat`. Node `Buffer` views are
modelled with their underlying `ArrayBuffer` made explicit, because the
decoders construct `new DataView(data.buffer)` over the underlying buffer
rather than over the view.
-/

namespace KalloView

/-- UTF-8 encoding of a single code point (the standard 1–4 byte scheme
implemented by Node's `Buffer.from(str, 'utf8')`; Lean `Char` excludes
surrogates, as do well-formed JS strings). -/
def utf8EncodeCodePoint (n : Nat) : List Nat :=
  if n < 0x80 then [n]
  else if n < 0x800 then [0xC0 + n / 64, 0x80 + n % 64]
  else if n < 0x10000 then [0xE0 + n / 4096, 0x80 + n / 64 % 64, 0x80 + n % 64]
  else [0xF0 + n / 262144, 0x80 + n / 4096 % 64, 0x80 + n / 64 % 64, 0x80 + n % 64]

/-- Models `Buffer.from(str, 'utf8')` (also the default encoding of
`Buffer.from(str)` used for PDA seeds): the UTF-8 bytes of the string. -/
def utf8Bytes (s : String) : List Nat :=
  (s.data.map (fun c => utf8EncodeCodePoint c.toNat)).flatten

/-- Models `Buffer.alloc(4)` + `writeUInt32LE(n, 0)`: the four
little-endian bytes of `n`. (At every call site `n` is a Node buffer
length, hence below `2^32`, so the out-of-range throw of `writeUInt32LE`
is unreachable.) -/
def writeUInt32LE (n : Nat) : List Nat :=
  [n % 256, n / 256 % 256, n / 65536 % 256, n / 16777216 % 256]

/-- Models `encodeString` from src/src/instructions.ts: 4-byte little-endian
length of the UTF-8 payload, then the payload. -/
def encodeString (str : String) : List Nat :=
  writeUInt32LE (utf8Bytes str).length ++ utf8Bytes str

/-- Models the coercion Node applies to each element of
`Buffer.from([v])`: `ToUint8`, i.e. the value modulo 256 (negative
integers wrap: `-1` becomes `255`). -/
def jsByteOfInt (v : Int) : Nat :=
  (v % 256).toNat

/-- Tag bytes of the `KalloViewInstructionType` enum
(Initialize = 0, CreateProduct = 1, UpdateProduct = 2, DeleteProduct = 3,
AddReview = 4, UpdateReview = 5, DailyClaim = 6). -/
def initializeTag : Nat := 0

def createProductTag : Nat := 1

def updateProductTag : Nat := 2

def deleteProductTag : Nat := 3

def addReviewTag : Nat := 4

def updateReviewTag : Nat := 5

def dailyClaimTag : Nat := 6

/-- Models `encodeCreateProduct` from src/src/instructions.ts. -/
def encodeCreateProduct (productId metadataUri : String) : List Nat :=
  [createProductTag] ++ encodeString productId ++ encodeString metadataUri

/-- Models `encodeUpdateProduct` from src/src/instructions.ts. -/
def encodeUpdateProduct (metadataUri : String) : List Nat :=
  [updateProductTag] ++ encodeString metadataUri

/-- Models `encodeAddReview` from src/src/instructions.ts; `score : number`
passes through `Buffer.from([score])`, modelled on the integers. -/
def encodeAddReview (productId : String) (score : Int) (comment : String) : List Nat :=
  [addReviewTag] ++ encodeString productId ++ [jsByteOfInt score] ++ encodeString comment

/-- Models `encodeUpdateReview` from src/src/instructions.ts. -/
def encodeUpdateReview (score : Int) (comment : String) : List Nat :=
  [updateReviewTag] ++ [jsByteOfInt score] ++ encodeString comment

/-! ### Solana primitives (@solana/web3.js values used by the SDK) -/

/-- A Solana `PublicKey`: a fixed 32-byte value (spec §3: "Addresses are
fixed 32-byte values"). -/
structure PublicKey where
  bytes : List Nat
deriving DecidableEq

/-- Models `PublicKey.toBuffer()`: the raw 32 bytes. -/
def PublicKey.toBuffer (pk : PublicKey) : List Nat := pk.bytes

/-- Models `SystemProgram.programId` (`11111111111111111111111111111111`):
32 zero bytes. -/
def systemProgramId : PublicKey := ⟨List.replicate 32 0⟩

/-- Models `SYSVAR_CLOCK_PUBKEY`
(`SysvarC1ock11111111111111111111111111111111`), base58-decoded. -/
def sysvarClockPubkey : PublicKey :=
  ⟨[6, 167, 213, 23, 24, 199, 116, 201, 40, 86, 99, 152, 105, 29, 94, 182,
    139, 94, 184, 163, 155, 75, 109, 92, 115, 85, 91, 33, 0, 0, 0, 0]⟩

/-! ### Node buffers and DataView reads

The decoders run `new DataView(data.buffer)`: the view they read through
spans the *underlying* `ArrayBuffer` of the blob, from its byte 0, not the
blob itself. A Node `Buffer` is in general a (offset, length) window into
a larger pool, so the underlying buffer must be modelled explicitly. -/

/-- A Node `Buffer`: a window of `len` bytes starting at byte `off` of the
underlying `ArrayBuffer` `pool` (`data.buffer` in JS). For a buffer that
owns its allocation, `off = 0` and `len = pool.length`. -/
structure JsBuffer where
  pool : List Nat
  off : Nat
  len : Nat
deriving DecidableEq

/-- The bytes of the blob itself (what indexing the `Buffer` sees). -/
def JsBuffer.view (b : JsBuffer) : List Nat :=
  (b.pool.drop b.off).take b.len

/-- Exceptions thrown by the JS runtime / web3.js during decoding. -/
inductive JsError where
  /-- Models `RangeError`: a `DataView` read past the end of its `ArrayBuffer`. -/
  | rangeError : JsError
  /-- Models `new PublicKey(b)` with `b.byteLength !== 32`. -/
  | invalidPublicKey : JsError
deriving DecidableEq

/-- Models `view.getUint8(i)` where `view = new DataView(data.buffer)`: bounds
are checked against the underlying buffer, not the blob. -/
def dvGetUint8 (b : JsBuffer) (i : Nat) : Except JsError Nat :=
  if i + 1 ≤ b.pool.length then .ok (b.pool.getD i 0) else .error .rangeError

/-- Models `view.getUint32(i, true)` (little-endian) over the underlying buffer. -/
def dvGetUint32 (b : JsBuffer) (i : Nat) : Except JsError Nat :=
  if i + 4 ≤ b.pool.length then
    .ok (b.pool.getD i 0 + 256 * b.pool.getD (i + 1) 0 +
      65536 * b.pool.getD (i + 2) 0 + 16777216 * b.pool.getD (i + 3) 0)
  else .error .rangeError

/-- The unsigned little-endian value of 8 pool bytes starting at `i`. -/
def poolU64 (b : JsBuffer) (i : Nat) : Nat :=
  (List.range 8).foldr (fun k acc => b.pool.getD (i + k) 0 * 256 ^ k + acc) 0

/-- Models `Number(view.getBigUint64(i, true))` over the underlying buffer.
(`Number` loses precision above `2^53`; the numeric value is modelled
exactly.) -/
def dvGetBigUint64 (b : JsBuffer) (i : Nat) : Except JsError Nat :=
  if i + 8 ≤ b.pool.length then .ok (poolU64 b i) else .error .rangeError

/-- Models `Number(view.getBigInt64(i, true))`: the same 8 bytes read as a
two's-complement signed integer. -/
def dvGetBigInt64 (b : JsBuffer) (i : Nat) : Except JsError Int :=
  if i + 8 ≤ b.pool.length then
    .ok (if poolU64 b i < 2 ^ 63 then (poolU64 b i : Int)
         else (poolU64 b i : Int) - 2 ^ 64)
  else .error .rangeError

/-- Models `data.slice(s, e)`: relative to the blob view and clamped to its end —
a JS slice never throws, it silently returns fewer bytes. -/
def bufSlice (b : JsBuffer) (s e : Nat) : List Nat :=
  ((b.view).drop s).take (e - s)

/-- Models `new PublicKey(bytes)` on a byte buffer: web3.js rejects any input
whose `byteLength` differs from 32. -/
def publicKeyOfBytes (bytes : List Nat) : Except JsError PublicKey :=
  if bytes.length = 32 then .ok ⟨bytes⟩ else .error .invalidPublicKey

/-- Models `new TextDecoder().decode(bytes)`: with default options this never
throws (malformed sequences become U+FFFD), so string decoding is total;
the decoded field is modelled by the raw byte slice it was decoded from. -/
def textDecode (bytes : List Nat) : List Nat := bytes

/-! ### Record types (the `interface` declarations of the client file) -/

/-- Models `interface Config`. -/
structure Config where
  isInitialized : Bool
  authority : PublicKey
  totalProducts : Nat
  totalReviews : Nat
  totalUsers : Nat
  totalTransactions : Nat
  version : Nat
deriving DecidableEq

/-- Models `interface Product` (string fields carry the raw decoded bytes, see
`textDecode`). -/
structure Product where
  productId : List Nat
  owner : PublicKey
  totalScores : Nat
  totalReviews : Nat
  metadataUri : List Nat
  status : Bool
  createdAt : Int
deriving DecidableEq

/-- Models `interface Review`. -/
structure Review where
  productId : List Nat
  reviewer : PublicKey
  score : Nat
  comment : List Nat
  createdAt : Int
  updatedAt : Int
deriving DecidableEq

/-- Models `interface User`. -/
structure User where
  userAddress : PublicKey
  dailyPoints : Nat
  reviewPoints : Nat
  lastClaimTime : Int
  totalReviews : Nat
deriving DecidableEq

/-- Models `interface DailyClaims`. -/
structure DailyClaims where
  user : PublicKey
  date : List Nat
  claimsCount : Nat
deriving DecidableEq

/-! ### Record decoders (`parse*Data` methods of `KalloViewClient`)

Each models the method body statement by statement; a thrown JS exception
becomes `Except.error`. -/

/-- Models `parseConfigData`: fixed offsets 0, 1–33, 33, 41, 49, 57, 65. -/
def parseConfigData (data : JsBuffer) : Except JsError Config := do
  let b0 ← dvGetUint8 data 0
  let authority ← publicKeyOfBytes (bufSlice data 1 33)
  let totalProducts ← dvGetBigUint64 data 33
  let totalReviews ← dvGetBigUint64 data 41
  let totalUsers ← dvGetBigUint64 data 49
  let totalTransactions ← dvGetBigUint64 data 57
  let version ← dvGetUint8 data 65
  return { isInitialized := b0 == 1, authority, totalProducts,
           totalReviews, totalUsers, totalTransactions, version }

/-- Models `parseProductData`: sequential offsets starting after the
initialization flag (which it skips without reading). -/
def parseProductData (data : JsBuffer) : Except JsError Product := do
  let productIdLen ← dvGetUint32 data 1
  let productId := textDecode (bufSlice data 5 (5 + productIdLen))
  let o := 5 + productIdLen
  let owner ← publicKeyOfBytes (bufSlice data o (o + 32))
  let totalScores ← dvGetUint32 data (o + 32)
  let totalReviews ← dvGetUint32 data (o + 36)
  let metadataUriLen ← dvGetUint32 data (o + 40)
  let metadataUri := textDecode (bufSlice data (o + 44) (o + 44 + metadataUriLen))
  let o2 := o + 44 + metadataUriLen
  let status ← dvGetUint8 data o2
  let createdAt ← dvGetBigInt64 data (o2 + 1)
  return { productId, owner, totalScores, totalReviews, metadataUri,
           status := status == 1, createdAt }

/-- Models `parseReviewData`. -/
def parseReviewData (data : JsBuffer) : Except JsError Review := do
  let productIdLen ← dvGetUint32 data 1
  let productId := textDecode (bufSlice data 5 (5 + productIdLen))
  let o := 5 + productIdLen
  let reviewer ← publicKeyOfBytes (bufSlice data o (o + 32))
  let score ← dvGetUint8 data (o + 32)
  let commentLen ← dvGetUint32 data (o + 33)
  let comment := textDecode (bufSlice data (o + 37) (o + 37 + commentLen))
  let o2 := o + 37 + commentLen
  let createdAt ← dvGetBigInt64 data o2
  let updatedAt ← dvGetBigInt64 data (o2 + 8)
  return { productId, reviewer, score, comment, createdAt, updatedAt }

/-- Models `parseUserData`: fixed offsets 1–33, 33, 41, 49, 57. -/
def parseUserData (data : JsBuffer) : Except JsError User := do
  let userAddress ← publicKeyOfBytes (bufSlice data 1 33)
  let dailyPoints ← dvGetBigUint64 data 33
  let reviewPoints ← dvGetBigUint64 data 41
  let lastClaimTime ← dvGetBigInt64 data 49
  let totalReviews ← dvGetUint32 data 57
  return { userAddress, dailyPoints, reviewPoints, lastClaimTime, totalReviews }

/-- Models `parseDailyClaimsData`. -/
def parseDailyClaimsData (data : JsBuffer) : Except JsError DailyClaims := do
  let user ← publicKeyOfBytes (bufSlice data 1 33)
  let dateLen ← dvGetUint32 data 33
  let date := textDecode (bufSlice data 37 (37 + dateLen))
  let claimsCount ← dvGetUint8 data (37 + dateLen)
  return { user, date, claimsCount }

/-! ### PDA derivation

`PublicKey.findProgramAddressSync` lives in @solana/web3.js, outside this
repository; the SDK's PDA helpers are parameterized over it. It either
returns an `(address, bump)` pair or throws (no bump found), hence
`Option`. -/

/-- The shape of `PublicKey.findProgramAddressSync(seeds, programId)`. -/
abbrev Deriver := List (List Nat) → PublicKey → Option (PublicKey × Nat)

/-- PDA seed constants from src/src/instructions.ts. -/
def CONFIG_SEED : String := "config"

def PRODUCT_SEED : String := "product"

def REVIEW_SEED : String := "review"

def USER_SEED : String := "user"

def DAILY_CLAIMS_SEED : String := "daily_claims"

/-- Models `getConfigPDA`. -/
def getConfigPDA (fpa : Deriver) (programId : PublicKey) : Option (PublicKey × Nat) :=
  fpa [utf8Bytes CONFIG_SEED] programId

/-- Models `getProductPDA`. -/
def getProductPDA (fpa : Deriver) (programId : PublicKey) (productId : String) :
    Option (PublicKey × Nat) :=
  fpa [utf8Bytes PRODUCT_SEED, utf8Bytes productId] programId

/-- Models `getReviewPDA`. -/
def getReviewPDA (fpa : Deriver) (programId : PublicKey) (productId : String)
    (reviewer : PublicKey) : Option (PublicKey × Nat) :=
  fpa [utf8Bytes REVIEW_SEED, utf8Bytes productId, reviewer.toBuffer] programId

/-- Models `getUserPDA`. -/
def getUserPDA (fpa : Deriver) (programId : PublicKey) (user : PublicKey) :
    Option (PublicKey × Nat) :=
  fpa [utf8Bytes USER_SEED, user.toBuffer] programId

/-- Models `getDailyClaimsPDA`. -/
def getDailyClaimsPDA (fpa : Deriver) (programId : PublicKey) (user : PublicKey)
    (date : String) : Option (PublicKey × Nat) :=
  fpa [utf8Bytes DAILY_CLAIMS_SEED, user.toBuffer, utf8Bytes date] programId

/-! Spec-side seed lists (spec §4.1 "Seed conventions"), for comparison
with the lists the SDK passes to the deriver. -/

/-- Spec §4.1: Config → [namespace] only. -/
def specConfigSeeds : List (List Nat) := [utf8Bytes "config"]

/-- Spec §4.1: Product → [namespace, productId]. -/
def specProductSeeds (productId : String) : List (List Nat) :=
  [utf8Bytes "product", utf8Bytes productId]

/-- Spec §4.1: Review → [namespace, productId, reviewerAddress]. -/
def specReviewSeeds (productId : String) (reviewer : PublicKey) : List (List Nat) :=
  [utf8Bytes "review", utf8Bytes productId, reviewer.bytes]

/-- Spec §4.1: User → [namespace, userAddress]. -/
def specUserSeeds (user : PublicKey) : List (List Nat) :=
  [utf8Bytes "user", user.bytes]

/-- Spec §4.1: DailyClaims → [namespace, userAddress, dateString]. -/
def specDailyClaimsSeeds (user : PublicKey) (date : String) : List (List Nat) :=
  [utf8Bytes "daily_claims", user.bytes, utf8Bytes date]

/-! Modelled from the spec: the derivation algorithm itself
(`findProgramAddressSync` / `createProgramAddressSync` of web3.js) is not
part of this repository's sources, so it is modelled from spec §4.1,
parameterized over the hash and the curve membership test. -/

/-- Modelled from the spec: hash `(seeds..., bump, program identifier,
domain-separation suffix)` — the candidate address for one bump value. -/
def createProgramAddress (hash : List Nat → List Nat) (seeds : List (List Nat))
    (programId : PublicKey) : List Nat :=
  hash (seeds.flatten ++ programId.bytes ++ utf8Bytes "ProgramDerivedAddress")

/-- Modelled from the spec: `(address, bump)` is a valid derivation for
`(seeds, programId)` iff `bump ≤ 255`, the address is the candidate for
that bump, it is off-curve, and every larger bump in range yields an
on-curve candidate (the search iterates from 255 down and accepts the
first off-curve result). -/
def FindsPDA (hash : List Nat → List Nat) (isOnCurve : List Nat → Bool)
    (seeds : List (List Nat)) (programId : PublicKey)
    (out : List Nat × Nat) : Prop :=
  out.2 ≤ 255 ∧
  out.1 = createProgramAddress hash (seeds ++ [[out.2]]) programId ∧
  isOnCurve out.1 = false ∧
  ∀ b : Nat, b ≤ 255 → out.2 < b →
    isOnCurve (createProgramAddress hash (seeds ++ [[b]]) programId) = true

/-- Modelled from the spec: the bump search, iterating the 1-byte bump
from 255 down to 0 (`fuel` counts the bumps still to try; the next bump
tried is `fuel - 1`). -/
def findProgramAddressLoop (hash : List Nat → List Nat)
    (isOnCurve : List Nat → Bool) (seeds : List (List Nat))
    (programId : PublicKey) : Nat → Option (List Nat × Nat)
  | 0 => none
  | fuel + 1 =>
    let a := createProgramAddress hash (seeds ++ [[fuel]]) programId
    if isOnCurve a then findProgramAddressLoop hash isOnCurve seeds programId fuel
    else some (a, fuel)

/-- Modelled from the spec: `findProgramAddressSync`, trying bumps 255
down to 0 and failing (`none`, a throw in JS) if all are on-curve. -/
def findProgramAddressSpec (hash : List Nat → List Nat)
    (isOnCurve : List Nat → Bool) (seeds : List (List Nat))
    (programId : PublicKey) : Option (List Nat × Nat) :=
  findProgramAddressLoop hash isOnCurve seeds programId 256

/-! ### Session façade (`KalloViewClient` getters)

Each getter is `try { derive; fetch; if (!accountInfo) return null;
return parse(accountInfo.data); } catch { log; return null; }`. The
transport call `connection.getAccountInfo(pda)` is a collaborator,
abstracted as `fetchAt : PublicKey → Except TransportError (Option
JsBuffer)` (`.ok none` = account absent, i.e. `getAccountInfo` returned
`null`). A thrown derivation, transport or parse error lands in the
`catch`, which logs and returns `null` (= `none`). -/

/-- An opaque transport failure (a rejected `getAccountInfo` promise). -/
inductive TransportError where
  | transportFailure : TransportError
deriving DecidableEq

/-- The transport collaborator boundary. -/
abbrev Fetcher := PublicKey → Except TransportError (Option JsBuffer)

/-- Models `KalloViewClient.getConfig`. -/
def getConfig (fpa : Deriver) (fetchAt : Fetcher) (programId : PublicKey) :
    Option Config :=
  match getConfigPDA fpa programId with
  | none => none
  | some (configPDA, _) =>
    match fetchAt configPDA with
    | .error _ => none
    | .ok none => none
    | .ok (some data) =>
      match parseConfigData data with
      | .error _ => none
      | .ok cfg => some cfg

/-- Models `KalloViewClient.getProduct`. -/
def getProduct (fpa : Deriver) (fetchAt : Fetcher) (programId : PublicKey)
    (productId : String) : Option Product :=
  match getProductPDA fpa programId productId with
  | none => none
  | some (productPDA, _) =>
    match fetchAt productPDA with
    | .error _ => none
    | .ok none => none
    | .ok (some data) =>
      match parseProductData data with
      | .error _ => none
      | .ok p => some p

/-- Models `KalloViewClient.getReview`. -/
def getReview (fpa : Deriver) (fetchAt : Fetcher) (programId : PublicKey)
    (productId : String) (reviewer : PublicKey) : Option Review :=
  match getReviewPDA fpa programId productId reviewer with
  | none => none
  | some (reviewPDA, _) =>
    match fetchAt reviewPDA with
    | .error _ => none
    | .ok none => none
    | .ok (some data) =>
      match parseReviewData data with
      | .error _ => none
      | .ok r => some r

/-- Models `KalloViewClient.getUser`. -/
def getUser (fpa : Deriver) (fetchAt : Fetcher) (programId : PublicKey)
    (userAddress : PublicKey) : Option User :=
  match getUserPDA fpa programId userAddress with
  | none => none
  | some (userPDA, _) =>
    match fetchAt userPDA with
    | .error _ => none
    | .ok none => none
    | .ok (some data) =>
      match parseUserData data with
      | .error _ => none
      | .ok u => some u

/-- Models `date || getCurrentDateString()`: JS `||` takes the fallback on any
falsy left operand — both `undefined` (absent optional argument) and the
empty string. `today` stands for `getCurrentDateString()`, the
time-source collaborator's current UTC date. -/
def jsOrDate (date : Option String) (today : String) : String :=
  match date with
  | none => today
  | some d => if d = "" then today else d

/-- Models `KalloViewClient.getDailyClaims`. -/
def getDailyClaims (fpa : Deriver) (fetchAt : Fetcher) (today : String)
    (programId : PublicKey) (userAddress : PublicKey) (date : Option String) :
    Option DailyClaims :=
  let dateStr := jsOrDate date today
  match getDailyClaimsPDA fpa programId userAddress dateStr with
  | none => none
  | some (dailyClaimsPDA, _) =>
    match fetchAt dailyClaimsPDA with
    | .error _ => none
    | .ok none => none
    | .ok (some data) =>
      match parseDailyClaimsData data with
      | .error _ => none
      | .ok dc => some dc

/-! ### Instruction builders (`create*Instruction`) -/

/-- One entry of a `TransactionInstruction`'s `keys` list. -/
structure AccountMeta where
  pubkey : PublicKey
  isSigner : Bool
  isWritable : Bool
deriving DecidableEq

/-- Models `TransactionInstruction`. -/
structure TransactionInstruction where
  keys : List AccountMeta
  programId : PublicKey
  data : List Nat
deriving DecidableEq

/-- Models `createInitializeInstruction`. -/
def createInitializeInstruction (programId authority configAccount : PublicKey) :
    TransactionInstruction :=
  { keys := [
      { pubkey := authority, isSigner := true, isWritable := true },
      { pubkey := configAccount, isSigner := false, isWritable := true },
      { pubkey := systemProgramId, isSigner := false, isWritable := false }],
    programId,
    data := [initializeTag] }

/-- Models `createCreateProductInstruction`. -/
def createCreateProductInstruction (programId owner productAccount configAccount :
    PublicKey) (productId metadataUri : String) : TransactionInstruction :=
  { keys := [
      { pubkey := owner, isSigner := true, isWritable := true },
      { pubkey := productAccount, isSigner := false, isWritable := true },
      { pubkey := configAccount, isSigner := false, isWritable := true },
      { pubkey := systemProgramId, isSigner := false, isWritable := false },
      { pubkey := sysvarClockPubkey, isSigner := false, isWritable := false }],
    programId,
    data := encodeCreateProduct productId metadataUri }

/-- Models `createUpdateProductInstruction`. -/
def createUpdateProductInstruction (programId owner productAccount : PublicKey)
    (metadataUri : String) : TransactionInstruction :=
  { keys := [
      { pubkey := owner, isSigner := true, isWritable := true },
      { pubkey := productAccount, isSigner := false, isWritable := true }],
    programId,
    data := encodeUpdateProduct metadataUri }

/-- Models `createDeleteProductInstruction`. -/
def createDeleteProductInstruction (programId owner productAccount : PublicKey) :
    TransactionInstruction :=
  { keys := [
      { pubkey := owner, isSigner := true, isWritable := true },
      { pubkey := productAccount, isSigner := false, isWritable := true }],
    programId,
    data := [deleteProductTag] }

/-- Models `createAddReviewInstruction`. -/
def createAddReviewInstruction (programId reviewer productAccount reviewAccount
    userAccount configAccount : PublicKey) (productId : String) (score : Int)
    (comment : String) : TransactionInstruction :=
  { keys := [
      { pubkey := reviewer, isSigner := true, isWritable := true },
      { pubkey := productAccount, isSigner := false, isWritable := true },
      { pubkey := reviewAccount, isSigner := false, isWritable := true },
      { pubkey := userAccount, isSigner := false, isWritable := true },
      { pubkey := configAccount, isSigner := false, isWritable := true },
      { pubkey := systemProgramId, isSigner := false, isWritable := false },
      { pubkey := sysvarClockPubkey, isSigner := false, isWritable := false }],
    programId,
    data := encodeAddReview productId score comment }

/-- Models `createUpdateReviewInstruction`. -/
def createUpdateReviewInstruction (programId reviewer reviewAccount : PublicKey)
    (score : Int) (comment : String) : TransactionInstruction :=
  { keys := [
      { pubkey := reviewer, isSigner := true, isWritable := true },
      { pubkey := reviewAccount, isSigner := false, isWritable := true },
      { pubkey := sysvarClockPubkey, isSigner := false, isWritable := false }],
    programId,
    data := encodeUpdateReview score comment }

/-- Models `createDailyClaimInstruction`. -/
def createDailyClaimInstruction (programId user userAccount dailyClaimsAccount
    configAccount : PublicKey) : TransactionInstruction :=
  { keys := [
      { pubkey := user, isSigner := true, isWritable := true },
      { pubkey := userAccount, isSigner := false, isWritable := true },
      { pubkey := dailyClaimsAccount, isSigner := false, isWritable := true },
      { pubkey := configAccount, isSigner := false, isWritable := true },
      { pubkey := systemProgramId, isSigner := false, isWritable := false },
      { pubkey := sysvarClockPubkey, isSigner := false, isWritable := false }],
    programId,
    data := [dailyClaimTag] }

/-- Decidable equality for `Except`, so concrete decode results can be
checked by `decide`. -/
instance {ε α : Type} [DecidableEq ε] [DecidableEq α] : DecidableEq (Except ε α) :=
  fun a b =>
    match a, b with
    | .error e₁, .error e₂ =>
      if h : e₁ = e₂ then isTrue (congrArg Except.error h)
      else isFalse (fun hc => h (Except.error.inj hc))
    | .ok v₁, .ok v₂ =>
      if h : v₁ = v₂ then isTrue (congrArg Except.ok h)
      else isFalse (fun hc => h (Except.ok.inj hc))
    | .error _, .ok _ => isFalse (fun hc => Except.noConfusion hc)
    | .ok _, .error _ => isFalse (fun hc => Except.noConfusion hc)

/-! ### Concrete inputs used by individual theorems -/

/-- Spec-side reading of a 4-byte little-endian length field: the value
held by the first four bytes of a buffer. -/
def readUInt32LE (l : List Nat) : Nat :=
  l.getD 0 0 + 256 * l.getD 1 0 + 65536 * l.getD 2 0 + 16777216 * l.getD 3 0

/-- A 33-byte Config blob (initialization flag `1`, then a 32-byte
authority) that views the first 33 bytes of a 66-byte underlying
`ArrayBuffer` — the normal situation for a Node `Buffer` carved out of a
shared pool. 33 is well below 66, the smallest byte count
`parseConfigData` reads (its last read is `getUint8(65)`). -/
def shortConfigBlob : JsBuffer :=
  { pool := 1 :: List.replicate 65 0, off := 0, len := 33 }

/-- A malformed, non-empty, 1-byte Config blob whose underlying buffer is
exactly the blob. -/
def malformedConfigBlob : JsBuffer :=
  { pool := [1], off := 0, len := 1 }

/-- A concrete deriver that always resolves to a fixed address. -/
def cexDeriver : Deriver := fun _ _ => some (⟨List.replicate 32 7⟩, 255)

/-- A concrete transport that finds `malformedConfigBlob` at every
address. -/
def cexFetcher : Fetcher := fun _ => .ok (some malformedConfigBlob)

/-! ## Theorems -/

/-- Claim C1 (refuted; the stated safety property fails on the code):
`parseConfigData` applied to a 33-byte blob — shorter than the 66 bytes
its reads require — decodes *successfully* whenever the blob's underlying
`ArrayBuffer` extends past the view, because every `DataView` read is
bounds-checked against `data.buffer`, not the blob. The decode returns
`.ok`, not a decode failure, and bytes 33–65 lie beyond the blob's
declared length. -/
theorem parseConfigData_short_blob_decodes :
    shortConfigBlob.len = 33 ∧
    shortConfigBlob.view.length = 33 ∧
    shortConfigBlob.len < 66 ∧
    parseConfigData shortConfigBlob =
      .ok { isInitialized := true, authority := ⟨List.replicate 32 0⟩,
            totalProducts := 0, totalReviews := 0, totalUsers := 0,
            totalTransactions := 0, version := 0 } := by
  decide

/-- Claim C2, counterexample: a present, non-empty (1-byte), malformed
Config blob makes `getConfig` return `null` — the decode failure is
caught and collapsed to the absent sentinel instead of being surfaced,
contradicting "null iff missing or length exactly zero". -/
theorem getConfig_collapses_decode_error :
    cexFetcher ⟨List.replicate 32 7⟩ = .ok (some malformedConfigBlob) ∧
    malformedConfigBlob.len = 1 ∧
    parseConfigData malformedConfigBlob = .error .invalidPublicKey ∧
    getConfig cexDeriver cexFetcher ⟨List.replicate 32 0⟩ = none := by
  decide

/-- Claim C3: encoding AddReview with `productId = "p1"`, `score = 5`,
`comment = "great"` yields exactly the tag byte, the length-prefixed
productId, the raw score byte and the length-prefixed comment
(`'p' = 112`, `'1' = 49`, `'g' 'r' 'e' 'a' 't' = 103 114 101 97 116`). -/
theorem encodeAddReview_golden :
    encodeAddReview "p1" 5 "great" =
      [4, 2, 0, 0, 0, 112, 49, 5, 5, 0, 0, 0, 103, 114, 101, 97, 116] := by
  decide

/-- Claim C5: for every operation and all argument values, byte 0 of the
encoded payload is the operation's fixed tag (0–6), and the remaining
bytes are the arguments' primitive encodings concatenated in declared
order. -/
theorem encode_tag_layout (programId authority configAccount owner productAccount
    reviewAccount userAccount dailyClaimsAccount reviewer user : PublicKey)
    (productId metadataUri comment : String) (score : Int) :
    (createInitializeInstruction programId authority configAccount).data = [0] ∧
    (createCreateProductInstruction programId owner productAccount configAccount
        productId metadataUri).data.head? = some 1 ∧
    (createCreateProductInstruction programId owner productAccount configAccount
        productId metadataUri).data.tail =
      encodeString productId ++ encodeString metadataUri ∧
    (createUpdateProductInstruction programId owner productAccount
        metadataUri).data.head? = some 2 ∧
    (createUpdateProductInstruction programId owner productAccount
        metadataUri).data.tail = encodeString metadataUri ∧
    (createDeleteProductInstruction programId owner productAccount).data = [3] ∧
    (createAddReviewInstruction programId reviewer productAccount reviewAccount
        userAccount configAccount productId score comment).data.head? = some 4 ∧
    (createAddReviewInstruction programId reviewer productAccount reviewAccount
        userAccount configAccount productId score comment).data.tail =
      encodeString productId ++ [jsByteOfInt score] ++ encodeString comment ∧
    (createUpdateReviewInstruction programId reviewer reviewAccount score
        comment).data.head? = some 5 ∧
    (createUpdateReviewInstruction programId reviewer reviewAccount score
        comment).data.tail = [jsByteOfInt score] ++ encodeString comment ∧
    (createDailyClaimInstruction programId user userAccount dailyClaimsAccount
        configAccount).data = [6] := by
  refine ⟨rfl, rfl, ?_, rfl, rfl, rfl, rfl, ?_, rfl, rfl, rfl⟩ <;>
    simp [createCreateProductInstruction, createAddReviewInstruction,
      encodeCreateProduct, encodeAddReview]

/-- Claim C6: each record kind's address is derived from exactly the
spec's fixed seed list, namespace literal first, UTF-8 encoded, natural
keys in the spec's order. -/
theorem pda_seed_lists_match_spec (fpa : Deriver) (programId : PublicKey)
    (productId : String) (reviewer user : PublicKey) (date : String) :
    getConfigPDA fpa programId = fpa specConfigSeeds programId ∧
    getProductPDA fpa programId productId =
      fpa (specProductSeeds productId) programId ∧
    getReviewPDA fpa programId productId reviewer =
      fpa (specReviewSeeds productId reviewer) programId ∧
    getUserPDA fpa programId user = fpa (specUserSeeds user) programId ∧
    getDailyClaimsPDA fpa programId user date =
      fpa (specDailyClaimsSeeds user date) programId :=
  ⟨rfl, rfl, rfl, rfl, rfl⟩

/-- Claim C9: in the daily-claims lookup, an explicit empty-string date
behaves identically to an absent date — `date || getCurrentDateString()`
falls back on any falsy value, so both derive from today's date. -/
theorem getDailyClaims_empty_date_uses_today (fpa : Deriver) (fetchAt : Fetcher)
    (today : String) (programId userAddress : PublicKey) :
    getDailyClaims fpa fetchAt today programId userAddress (some "") =
      getDailyClaims fpa fetchAt today programId userAddress none ∧
    jsOrDate (some "") today = today ∧
    jsOrDate none today = today :=
  ⟨rfl, rfl, rfl⟩

/-- Claim C10: in all seven instruction builders, the first account-role
entry is the payer/signer with `isSigner` and `isWritable` both true, and
every other entry has `isSigner = false`, for all argument values. -/
theorem builders_payer_first_signer (programId authority configAccount owner
    productAccount reviewAccount userAccount dailyClaimsAccount reviewer user :
    PublicKey) (productId metadataUri comment : String) (score : Int) :
    (createInitializeInstruction programId authority configAccount).keys.head? =
      some ⟨authority, true, true⟩ ∧
    (createInitializeInstruction programId authority
        configAccount).keys.tail.all (fun m => !m.isSigner) = true ∧
    (createCreateProductInstruction programId owner productAccount configAccount
        productId metadataUri).keys.head? = some ⟨owner, true, true⟩ ∧
    (createCreateProductInstruction programId owner productAccount configAccount
        productId metadataUri).keys.tail.all (fun m => !m.isSigner) = true ∧
    (createUpdateProductInstruction programId owner productAccount
        metadataUri).keys.head? = some ⟨owner, true, true⟩ ∧
    (createUpdateProductInstruction programId owner productAccount
        metadataUri).keys.tail.all (fun m => !m.isSigner) = true ∧
    (createDeleteProductInstruction programId owner productAccount).keys.head? =
      some ⟨owner, true, true⟩ ∧
    (createDeleteProductInstruction programId owner
        productAccount).keys.tail.all (fun m => !m.isSigner) = true ∧
    (createAddReviewInstruction programId reviewer productAccount reviewAccount
        userAccount configAccount productId score comment).keys.head? =
      some ⟨reviewer, true, true⟩ ∧
    (createAddReviewInstruction programId reviewer productAccount reviewAccount
        userAccount configAccount productId score comment).keys.tail.all
      (fun m => !m.isSigner) = true ∧
    (createUpdateReviewInstruction programId reviewer reviewAccount score
        comment).keys.head? = some ⟨reviewer, true, true⟩ ∧
    (createUpdateReviewInstruction programId reviewer reviewAccount score
        comment).keys.tail.all (fun m => !m.isSigner) = true ∧
    (createDailyClaimInstruction programId user userAccount dailyClaimsAccount
        configAccount).keys.head? = some ⟨user, true, true⟩ ∧
    (createDailyClaimInstruction programId user userAccount dailyClaimsAccount
        configAccount).keys.tail.all (fun m => !m.isSigner) = true :=
  ⟨rfl, rfl, rfl, rfl, rfl, rfl, rfl, rfl, rfl, rfl, rfl, rfl, rfl, rfl⟩

/-- Claim C4: the string encoder emits a 4-byte little-endian length
field holding the UTF-8 byte length, followed by exactly those UTF-8
bytes; `encode_string("")` is 4 zero bytes and `encode_string("x")` is
`01 00 00 00 78`. -/
theorem encodeString_layout (s : String)
    (h : (utf8Bytes s).length < 4294967296) :
    (encodeString s).length = 4 + (utf8Bytes s).length ∧
    readUInt32LE (encodeString s) = (utf8Bytes s).length ∧
    (encodeString s).drop 4 = utf8Bytes s ∧
    encodeString "" = [0, 0, 0, 0] ∧
    encodeString "x" = [1, 0, 0, 0, 120] := by
  refine ⟨?_, ?_, ?_, by decide, by decide⟩
  · simp [encodeString, writeUInt32LE]
    omega
  · simp only [encodeString, writeUInt32LE, List.cons_append, List.nil_append,
      readUInt32LE, List.getD_cons_zero, List.getD_cons_succ]
    omega
  · simp [encodeString, writeUInt32LE]

/-- Witness for C4 at `s = "x"`. -/
theorem encodeString_layout_witness :
    (utf8Bytes "x").length < 4294967296 ∧
    ((encodeString "x").length = 4 + (utf8Bytes "x").length ∧
     readUInt32LE (encodeString "x") = (utf8Bytes "x").length ∧
     (encodeString "x").drop 4 = utf8Bytes "x" ∧
     encodeString "" = [0, 0, 0, 0] ∧
     encodeString "x" = [1, 0, 0, 0, 120]) :=
  ⟨by decide, encodeString_layout "x" (by decide)⟩

/-- Claim C8: the single score byte both review encoders write equals the
score modulo 256 — out-of-range and negative scores wrap silently, and
the encoders are total (the payload is produced for every integer
score). -/
theorem review_score_byte_wraps (productId comment : String) (score : Int) :
    (encodeAddReview productId score comment)[1 + (encodeString productId).length]? =
      some ((score % 256).toNat) ∧
    (encodeUpdateReview score comment)[1]? = some ((score % 256).toNat) ∧
    (score % 256).toNat < 256 ∧
    (encodeAddReview productId score comment).length =
      2 + (encodeString productId).length + (encodeString comment).length := by
  refine ⟨?_, rfl, ?_, ?_⟩
  · have e : encodeAddReview productId score comment =
        4 :: (encodeString productId ++ ([jsByteOfInt score] ++ encodeString comment)) := by
      simp [encodeAddReview, addReviewTag]
    rw [e, Nat.add_comm 1 (encodeString productId).length, List.getElem?_cons_succ,
      List.getElem?_append_right (Nat.le_refl _), Nat.sub_self]
    rfl
  · omega
  · simp [encodeAddReview, jsByteOfInt]
    omega

/-- The bump search examines bumps `fuel - 1, …, 0`: a successful result
is the largest off-curve bump below `fuel`, with every larger bump below
`fuel` on-curve. -/
theorem findProgramAddressLoop_sound (hash : List Nat → List Nat)
    (isOnCurve : List Nat → Bool) (seeds : List (List Nat))
    (programId : PublicKey) :
    ∀ fuel out, findProgramAddressLoop hash isOnCurve seeds programId fuel = some out →
      out.2 < fuel ∧
      out.1 = createProgramAddress hash (seeds ++ [[out.2]]) programId ∧
      isOnCurve out.1 = false ∧
      ∀ b : Nat, out.2 < b → b < fuel →
        isOnCurve (createProgramAddress hash (seeds ++ [[b]]) programId) = true := by
  intro fuel
  induction fuel with
  | zero => intro out h; simp [findProgramAddressLoop] at h
  | succ n ih =>
    intro out h
    simp only [findProgramAddressLoop] at h
    by_cases hc :
        isOnCurve (createProgramAddress hash (seeds ++ [[n]]) programId) = true
    · rw [if_pos hc] at h
      obtain ⟨hlt, haddr, hoff, hmax⟩ := ih out h
      refine ⟨Nat.lt_succ_of_lt hlt, haddr, hoff, ?_⟩
      intro b hb hbn
      rcases Nat.lt_or_ge b n with hbn' | hbn'
      · exact hmax b hb hbn'
      · have : b = n := by omega
        rw [this]; exact hc
    · rw [if_neg hc] at h
      injection h with h
      subst h
      refine ⟨Nat.lt_succ_self n, rfl, Bool.eq_false_iff.mpr hc, ?_⟩
      intro b hb hbn
      omega

/-- The executable bump search satisfies the spec relation `FindsPDA`
whenever it succeeds. -/
theorem findProgramAddressSpec_sound (hash : List Nat → List Nat)
    (isOnCurve : List Nat → Bool) (seeds : List (List Nat))
    (programId : PublicKey) (out : List Nat × Nat)
    (h : findProgramAddressSpec hash isOnCurve seeds programId = some out) :
    FindsPDA hash isOnCurve seeds programId out := by
  obtain ⟨hlt, haddr, hoff, hmax⟩ :=
    findProgramAddressLoop_sound hash isOnCurve seeds programId 256 out h
  exact ⟨by omega, haddr, hoff, fun b hb hgt => hmax b hgt (by omega)⟩

/-- Claim C7: address derivation is deterministic — any two derivations
for the same hash, curve test, seed list and program identifier produce
the same `(address, bump)` pair (the accepted bump is the unique largest
off-curve one, and the address is a function of it). -/
theorem findsPDA_deterministic (hash : List Nat → List Nat)
    (isOnCurve : List Nat → Bool) (seeds : List (List Nat))
    (programId : PublicKey) (out₁ out₂ : List Nat × Nat)
    (h₁ : FindsPDA hash isOnCurve seeds programId out₁)
    (h₂ : FindsPDA hash isOnCurve seeds programId out₂) :
    out₁ = out₂ := by
  obtain ⟨a₁, b₁⟩ := out₁
  obtain ⟨a₂, b₂⟩ := out₂
  obtain ⟨hb₁, ha₁, hoff₁, hmax₁⟩ := h₁
  obtain ⟨hb₂, ha₂, hoff₂, hmax₂⟩ := h₂
  have hbump : b₁ = b₂ := by
    by_contra hne
    rcases Nat.lt_or_ge b₁ b₂ with hlt | hge
    · have hon := hmax₁ b₂ hb₂ hlt
      rw [← ha₂] at hon
      rw [hoff₂] at hon
      exact Bool.false_ne_true hon
    · have hlt : b₂ < b₁ := by omega
      have hon := hmax₂ b₁ hb₁ hlt
      rw [← ha₁] at hon
      rw [hoff₁] at hon
      exact Bool.false_ne_true hon
  subst hbump
  exact congrArg (fun a => (a, b₁)) (ha₁.trans ha₂.symm)

/-- Witness for C7: a concrete derivation (identity hash, everything
off-curve, empty seed list) accepted at bump 255, fed to the determinism
theorem. -/
theorem findsPDA_deterministic_witness :
    FindsPDA (fun l => l) (fun _ => false) [] ⟨List.replicate 32 0⟩
      (createProgramAddress (fun l => l) [[255]] ⟨List.replicate 32 0⟩, 255) ∧
    (createProgramAddress (fun l => l) [[255]] ⟨List.replicate 32 0⟩, 255) =
      (createProgramAddress (fun l => l) [[255]] ⟨List.replicate 32 0⟩, 255) :=
  have h : FindsPDA (fun l => l) (fun _ => false) [] ⟨List.replicate 32 0⟩
      (createProgramAddress (fun l => l) [[255]] ⟨List.replicate 32 0⟩, 255) :=
    ⟨Nat.le_refl 255, rfl, rfl, fun _ hb hgt => absurd (Nat.lt_of_lt_of_le hgt hb)
      (Nat.lt_irrefl 255)⟩
  ⟨h, findsPDA_deterministic (fun l => l) (fun _ => false) [] ⟨List.replicate 32 0⟩
    _ _ h h⟩

/-- Claim C2, amended: each façade lookup returns a record iff address
derivation succeeded, the transport returned a present blob, and decoding
succeeded; in every other case — derivation throw, transport error,
missing blob, or decode throw (which includes the zero-length blob) — it
returns the absent sentinel `null`: failures are logged and collapsed to
`null`, never surfaced to the caller. -/
theorem getters_some_iff_all_steps_ok (fpa : Deriver) (fetchAt : Fetcher)
    (programId : PublicKey) (productId : String)
    (reviewer userAddress : PublicKey) (today : String) (date : Option String) :
    (∀ cfg : Config, getConfig fpa fetchAt programId = some cfg ↔
      ∃ pda bump data, getConfigPDA fpa programId = some (pda, bump) ∧
        fetchAt pda = .ok (some data) ∧ parseConfigData data = .ok cfg) ∧
    (∀ p : Product, getProduct fpa fetchAt programId productId = some p ↔
      ∃ pda bump data, getProductPDA fpa programId productId = some (pda, bump) ∧
        fetchAt pda = .ok (some data) ∧ parseProductData data = .ok p) ∧
    (∀ r : Review, getReview fpa fetchAt programId productId reviewer = some r ↔
      ∃ pda bump data,
        getReviewPDA fpa programId productId reviewer = some (pda, bump) ∧
        fetchAt pda = .ok (some data) ∧ parseReviewData data = .ok r) ∧
    (∀ u : User, getUser fpa fetchAt programId userAddress = some u ↔
      ∃ pda bump data, getUserPDA fpa programId userAddress = some (pda, bump) ∧
        fetchAt pda = .ok (some data) ∧ parseUserData data = .ok u) ∧
    (∀ dc : DailyClaims,
      getDailyClaims fpa fetchAt today programId userAddress date = some dc ↔
      ∃ pda bump data,
        getDailyClaimsPDA fpa programId userAddress (jsOrDate date today) =
          some (pda, bump) ∧
        fetchAt pda = .ok (some data) ∧ parseDailyClaimsData data = .ok dc) := by
  refine ⟨?_, ?_, ?_, ?_, ?_⟩ <;> intro x
  · cases hpda : getConfigPDA fpa programId with
    | none => simp [getConfig, hpda]
    | some pb =>
      obtain ⟨pda, bump⟩ := pb
      cases hf : fetchAt pda with
      | error e => simp [getConfig, hpda, hf]
      | ok od =>
        cases od with
        | none => simp [getConfig, hpda, hf]
        | some data =>
          cases hp : parseConfigData data with
          | error e => simp [getConfig, hpda, hf, hp]
          | ok c => simp [getConfig, hpda, hf, hp, eq_comm]
  · cases hpda : getProductPDA fpa programId productId with
    | none => simp [getProduct, hpda]
    | some pb =>
      obtain ⟨pda, bump⟩ := pb
      cases hf : fetchAt pda with
      | error e => simp [getProduct, hpda, hf]
      | ok od =>
        cases od with
        | none => simp [getProduct, hpda, hf]
        | some data =>
          cases hp : parseProductData data with
          | error e => simp [getProduct, hpda, hf, hp]
          | ok c => simp [getProduct, hpda, hf, hp, eq_comm]
  · cases hpda : getReviewPDA fpa programId productId reviewer with
    | none => simp [getReview, hpda]
    | some pb =>
      obtain ⟨pda, bump⟩ := pb
      cases hf : fetchAt pda with
      | error e => simp [getReview, hpda, hf]
      | ok od =>
        cases od with
        | none => simp [getReview, hpda, hf]
        | some data =>
          cases hp : parseReviewData data with
          | error e => simp [getReview, hpda, hf, hp]
          | ok c => simp [getReview, hpda, hf, hp, eq_comm]
  · cases hpda : getUserPDA fpa programId userAddress with
    | none => simp [getUser, hpda]
    | some pb =>
      obtain ⟨pda, bump⟩ := pb
      cases hf : fetchAt pda with
      | error e => simp [getUser, hpda, hf]
      | ok od =>
        cases od with
        | none => simp [getUser, hpda, hf]
        | some data =>
          cases hp : parseUserData data with
          | error e => simp [getUser, hpda, hf, hp]
          | ok c => simp [getUser, hpda, hf, hp, eq_comm]
  · cases hpda : getDailyClaimsPDA fpa programId userAddress (jsOrDate date today) with
    | none => simp [getDailyClaims, hpda]
    | some pb =>
      obtain ⟨pda, bump⟩ := pb
      cases hf : fetchAt pda with
      | error e => simp [getDailyClaims, hpda, hf]
      | ok od =>
        cases od with
        | none => simp [getDailyClaims, hpda, hf]
        | some data =>
          cases hp : parseDailyClaimsData data with
          | error e => simp [getDailyClaims, hpda, hf, hp]
          | ok c => simp [getDailyClaims, hpda, hf, hp, eq_comm]

end KalloView
